import Mathlib

/-
Verification of the calamansi-detection service core: the request admission,
resilience, and decision pipeline (server entry file, src/db.js).

Modelling conventions (a shallow embedding of the JavaScript source):
* JS numbers that carry confidences, thresholds and coordinates are modelled as
  exact fixed-point integers in units of 1e-6: the JS value 0.70 is the Int
  700000, 0.50 is 500000.  The 2-decimal percentage produced by
  parseFloat((c * 100).toFixed(2)) is modelled in units of 1e-2 percent:
  the JS value 75.00 is the Int 7500.  toFixed rounds half away from zero on
  the decimal value; confidences are nonnegative, so this is floor(x + 1/2),
  modelled exactly below (binary floating point artifacts are idealised away).
* Timestamps (Date.now()) are Int milliseconds.
* The SQLite tables are association lists; prepared statements become pure
  functions from a DbState to a DbState.
* Within one request the two upstream calls run through the shared circuit
  breaker; the embedding sequences call 1 before call 2 (their synchronous
  prefixes run in that order in the event loop).
* JS toLowerCase is per-character lowercasing (class labels are ASCII).
-/

namespace Calamansi

/-- Character-list substring test: pat occurs somewhere in the list. -/
def charsContain (pat : List Char) : List Char → Bool
  | [] => pat.isEmpty
  | c :: rest => pat.isPrefixOf (c :: rest) || charsContain pat rest

/-- JS String.prototype.includes. -/
def containsStr (s pat : String) : Bool := charsContain pat.data s.data

/-- JS String.prototype.toLowerCase restricted to ASCII class labels. -/
def lowerString (s : String) : String := String.mk (s.data.map Char.toLower)

/-- One candidate label of an upstream inference response. -/
structure Prediction where
  cls : String
  confidence : Int
  x : Int
  y : Int
  width : Int
  height : Int
deriving DecidableEq

/-- An upstream inference response: predictions plus image dimensions. -/
structure ModelData where
  predictions : List Prediction
  imageWidth : Int
  imageHeight : Int
deriving DecidableEq

/-- parseFloat((c * 100).toFixed(2)) for a confidence c in micro-units;
the result is in hundredths of a percent (75.00 becomes 7500).
For the nonnegative confidences of the source this is floor(c/100 + 1/2). -/
def pctRound2 (c : Int) : Int := (c + 50) / 100

/-- The reduce((max, pred) => pred.confidence > max.confidence ? pred : max,
predictions[0]) step of the source (lines 445-447 and 484-486). -/
def maxStep (m q : Prediction) : Prediction :=
  if q.confidence > m.confidence then q else m

/-- Top prediction of a response, exactly as the source computes it:
a fold over the whole list seeded with its first element. -/
def topPred : List Prediction → Option Prediction
  | [] => none
  | p :: ps => some ((p :: ps).foldl maxStep p)

/-- The negative-class test of server lines 454-457, applied to the already
lowercased class label. -/
def isNotCalamansi (predictedClass : String) : Bool :=
  containsStr predictedClass "not" ||
    predictedClass == "not calamansi" ||
    predictedClass == "not-calamansi" ||
    predictedClass == "not_calamansi"

/-- Bounding box surfaced with the accepted outcome (server lines 508-513). -/
structure BoundingBox where
  x : Int
  y : Int
  width : Int
  height : Int
deriving DecidableEq

/-- One entry of responseData.allPredictions (server lines 518-525). -/
structure CandidateOut where
  cls : String
  confidence : Int
  x : Int
  y : Int
  width : Int
  height : Int
deriving DecidableEq

/-- The map applied to each of the first five secondary predictions
(server lines 518-525): class kept verbatim, confidence rendered as a
2-decimal percentage, box coordinates passed through. -/
def toCandidate (p : Prediction) : CandidateOut :=
  { cls := p.cls
    confidence := pctRound2 p.confidence
    x := p.x
    y := p.y
    width := p.width
    height := p.height }

/-- Payload of a successful detection response (server lines 500-528). -/
structure AcceptedData where
  model1Class : String
  model1Confidence : Int
  model2Class : String
  model2Confidence : Int
  boundingBox : BoundingBox
  imageWidth : Int
  imageHeight : Int
  allPredictions : List CandidateOut
deriving DecidableEq

/-- Outcome of the threshold decision sequence of the /api/detect handler
(server lines 437-528).  Rejections carry the values the handler logs. -/
inductive Decision where
  | noPrimaryPrediction
  | negativeClassDetected (confidence : Int)
  | lowPrimaryConfidence (cls : String) (confidence : Int)
  | noSecondaryPrediction (cls : String) (confidence : Int)
  | lowSecondaryConfidence (cls : String) (confidence : Int)
  | accepted (d : AcceptedData)
deriving DecidableEq

/-- The decision sequence of server lines 437-528 as a pure function of the
two model responses and the two thresholds (MODEL_1_THRESHOLD and
MODEL_2_THRESHOLD, both defaulting to 0.50 = 500000). -/
def detectDecision (model1Data model2Data : ModelData)
    (threshold1 threshold2 : Int) : Decision :=
  match topPred model1Data.predictions with
  | none => .noPrimaryPrediction
  | some topPrediction =>
    let predictedClass := lowerString topPrediction.cls
    let confidence1 := topPrediction.confidence
    if isNotCalamansi predictedClass = true ∧ confidence1 > 700000 then
      .negativeClassDetected confidence1
    else if isNotCalamansi predictedClass = false ∧ confidence1 < threshold1 then
      .lowPrimaryConfidence predictedClass confidence1
    else
      match topPred model2Data.predictions with
      | none => .noSecondaryPrediction predictedClass confidence1
      | some topDiseasePrediction =>
        if topDiseasePrediction.confidence < threshold2 then
          .lowSecondaryConfidence topDiseasePrediction.cls
            topDiseasePrediction.confidence
        else
          .accepted
            { model1Class := predictedClass
              model1Confidence := pctRound2 confidence1
              model2Class := lowerString topDiseasePrediction.cls
              model2Confidence := pctRound2 topDiseasePrediction.confidence
              boundingBox :=
                { x := topDiseasePrediction.x
                  y := topDiseasePrediction.y
                  width := topDiseasePrediction.width
                  height := topDiseasePrediction.height }
              imageWidth := model2Data.imageWidth
              imageHeight := model2Data.imageHeight
              allPredictions :=
                (model2Data.predictions.take 5).map toCandidate }

/-- Projection used to state facts about the accepted candidate list. -/
def allPredsOf : Decision → Option (List CandidateOut)
  | .accepted d => some d.allPredictions
  | _ => none

/- ===== Spec-side definitions (written from the words of the spec, for the
refinement claims; everything above is written from the source). ===== -/

/-- Spec side: arg-max by confidence, ties broken by first occurrence in the
order of the set. -/
def isMaxIn (l : List Prediction) (p : Prediction) : Bool :=
  l.all (fun q => decide (q.confidence ≤ p.confidence))

/-- Spec side: select the top prediction as the first element achieving the
maximum confidence. -/
def specTop (preds : List Prediction) : Option Prediction :=
  preds.find? (isMaxIn preds)

/-- Spec side: the configured negative-class spellings. -/
def negativeSpellings : List String :=
  ["not calamansi", "not-calamansi", "not_calamansi"]

/-- Spec side: a lowercased label is a negative-class indicator when it
contains the substring "not" or exactly matches a configured spelling. -/
def negativeClassSpec (label : String) : Bool :=
  containsStr label "not" || negativeSpellings.contains label

/-- Decision outcome without the candidate list and image dimensions: the part
of the outcome that claim C6 specifies. -/
inductive DecisionCore where
  | noPrimaryPrediction
  | negativeClassDetected (confidence : Int)
  | lowPrimaryConfidence (cls : String) (confidence : Int)
  | noSecondaryPrediction (cls : String) (confidence : Int)
  | lowSecondaryConfidence (cls : String) (confidence : Int)
  | accepted (model1Class : String) (model1Confidence : Int)
      (model2Class : String) (model2Confidence : Int) (box : BoundingBox)
deriving DecidableEq

/-- Forget the candidate list and image dimensions of a decision. -/
def coreOf : Decision → DecisionCore
  | .noPrimaryPrediction => .noPrimaryPrediction
  | .negativeClassDetected c => .negativeClassDetected c
  | .lowPrimaryConfidence s c => .lowPrimaryConfidence s c
  | .noSecondaryPrediction s c => .noSecondaryPrediction s c
  | .lowSecondaryConfidence s c => .lowSecondaryConfidence s c
  | .accepted d =>
      .accepted d.model1Class d.model1Confidence d.model2Class
        d.model2Confidence d.boundingBox

/-- Spec side: the strictly ordered check sequence of spec section 4.5,
terminating on the first failing check, with the spec arg-max and the spec
negative-class classifier. -/
def decisionSpec (model1Data model2Data : ModelData)
    (threshold1 threshold2 : Int) : DecisionCore :=
  match specTop model1Data.predictions with
  | none => .noPrimaryPrediction
  | some top =>
    let label := lowerString top.cls
    if negativeClassSpec label = true ∧ top.confidence > 700000 then
      .negativeClassDetected top.confidence
    else if negativeClassSpec label = false ∧ top.confidence < threshold1 then
      .lowPrimaryConfidence label top.confidence
    else
      match specTop model2Data.predictions with
      | none => .noSecondaryPrediction label top.confidence
      | some sec =>
        if sec.confidence < threshold2 then
          .lowSecondaryConfidence sec.cls sec.confidence
        else
          .accepted label (pctRound2 top.confidence) (lowerString sec.cls)
            (pctRound2 sec.confidence) ⟨sec.x, sec.y, sec.width, sec.height⟩

/-- Spec side: stable insertion of a prediction into a list sorted by
descending confidence; the inserted element goes after strictly greater
entries only, so earlier entries win ties. -/
def insertDesc (p : Prediction) : List Prediction → List Prediction
  | [] => [p]
  | q :: rest =>
      if q.confidence > p.confidence then q :: insertDesc p rest
      else p :: q :: rest

/-- Spec side: sort by descending confidence, ties broken by original order. -/
def sortByConfDesc : List Prediction → List Prediction
  | [] => []
  | p :: rest => insertDesc p (sortByConfDesc rest)

/-- Spec side: the top 5 entries by confidence, ties broken by original order,
each rendered as a 2-decimal percentage (the candidate list claim C5 states). -/
def topCandidatesSpec (preds : List Prediction) : List CandidateOut :=
  ((sortByConfDesc preds).take 5).map toCandidate

/- ===== Circuit breaker and inference client (server lines 23-26, 197-285) ===== -/

/-- The three module-level circuit breaker variables of server lines 24-26. -/
structure CircuitState where
  apiFailureCount : Nat
  circuitOpen : Bool
  lastFailureTime : Int
deriving DecidableEq

/-- How one axios invocation settles.  With validateStatus accepting every
status below 600, any received HTTP response resolves and is carried by
response; axiosFailure carries a rejection of axios itself, with the optional
error.code, the error.name, the optional error.response.status (only set for
statuses validateStatus refused, that is at least 600) and error.message.
dataText stands for JSON.stringify(response.data). -/
inductive TransportResult where
  | response (status : Nat) (data : ModelData) (dataText : String)
  | axiosFailure (code : Option String) (nm : String)
      (respStatus : Option Nat) (msg : String)
deriving DecidableEq

/-- Result of one callRoboflowAPI invocation. -/
inductive CallOutcome where
  | ok (data : ModelData)
  | err (msg : String)
deriving DecidableEq

/-- The error-classification cascade of the catch block, server lines 263-283:
the message of the Error the call throws. -/
def classifyAxiosError (code : Option String) (nm : String)
    (respStatus : Option Nat) (msg : String) : String :=
  if code = some "ECONNABORTED" ∨ nm = "AbortError" then "Request timeout"
  else if code = some "ENOTFOUND" then "DNS lookup failed"
  else if code = some "ECONNREFUSED" then "Connection refused"
  else
    match respStatus with
    | some status =>
      if status = 429 then "API rate limit exceeded"
      else if status = 401 ∨ status = 403 then "Authentication failed"
      else if status = 400 then "Invalid image data"
      else "API request failed with status " ++ toString status
    | none => "Network error - " ++ msg

/-- State, network flag and outcome of one callRoboflowAPI invocation.
networkCalled records whether the axios request was issued at all. -/
structure CallResult where
  state : CircuitState
  networkCalled : Bool
  result : CallOutcome
deriving DecidableEq

/-- The failure bookkeeping of the catch block, server lines 254-261:
increment the shared counter, stamp the failure time, open the circuit at 5. -/
def recordFailure (cs : CircuitState) (now : Int) (msg : String) : CallResult :=
  { state :=
      { apiFailureCount := cs.apiFailureCount + 1
        circuitOpen :=
          if cs.apiFailureCount + 1 ≥ 5 then true else cs.circuitOpen
        lastFailureTime := now }
    networkCalled := true
    result := .err msg }

/-- callRoboflowAPI, server lines 197-285: circuit gate, configuration checks,
then the axios call with its try/catch.  A response with a status other than
200 is thrown as a plain Error (line 243) whose message is
HTTP status: JSON.stringify(data); being a plain Error it has no code, the
name Error and no response field when the catch classifies it. -/
def callRoboflowAPI (cs : CircuitState) (now : Int)
    (apiKeySet modelUrlSet : Bool) (transport : TransportResult) : CallResult :=
  if cs.circuitOpen = true ∧ now - cs.lastFailureTime < 60000 then
    { state := cs
      networkCalled := false
      result := .err "Service temporarily unavailable - too many failures" }
  else
    let cs1 :=
      if cs.circuitOpen = true then
        { cs with circuitOpen := false, apiFailureCount := 0 }
      else cs
    if apiKeySet = false then
      { state := cs1, networkCalled := false
        result := .err "API key not configured" }
    else if modelUrlSet = false then
      { state := cs1, networkCalled := false
        result := .err "Model URL not configured" }
    else
      match transport with
      | .response status data dataText =>
        if status ≠ 200 then
          recordFailure cs1 now
            (classifyAxiosError none "Error" none
              ("HTTP " ++ toString status ++ ": " ++ dataText))
        else
          { state := { cs1 with apiFailureCount := 0 }
            networkCalled := true
            result := .ok data }
      | .axiosFailure code nm respStatus msg =>
          recordFailure cs1 now (classifyAxiosError code nm respStatus msg)

/-- A transport interaction the catch block classifies as a failure: any
resolved response with a status other than 200, or any axios rejection. -/
def isFailureTransport : TransportResult → Bool
  | .response status _ _ => status != 200
  | .axiosFailure _ _ _ _ => true

/-- sanitizeError, server lines 287-307: the insertion-ordered message map.
Keys are nonempty, so the includes test is the substring test. -/
def safeErrors : List (String × String) :=
  [("Request timeout", "The request took too long. Please try again."),
   ("API rate limit exceeded",
     "Service limit reached. Please try again in a moment."),
   ("Authentication failed", "Service temporarily unavailable."),
   ("Invalid image data",
     "Invalid image format. Please try a different image."),
   ("DNS lookup failed", "Cannot reach detection service."),
   ("Connection refused", "Detection service not responding."),
   ("API key not configured", "Service configuration error."),
   ("Model URL not configured", "Service configuration error."),
   ("Service temporarily unavailable - too many failures",
     "Service temporarily unavailable. Please try again in a minute.")]

/-- sanitizeError, server lines 287-307. -/
def sanitizeError (msg : String) : String :=
  match safeErrors.find? (fun kv => containsStr msg kv.1) with
  | some kv => kv.2
  | none => "An error occurred during processing."

/- ===== The SQLite ledger (src/db.js) ===== -/

/-- One row of the detections table. -/
structure DetectionRow where
  ip : String
  timestamp : Int
  disease : Option String
  confidence : Option Int
  processingTime : Option Int
  success : Bool
  errorMessage : Option String
  userAgent : Option String
deriving DecidableEq

/-- One row of the rate_limits table (keyed by ip in DbState). -/
structure RateLimitRow where
  requestCount : Nat
  firstRequest : Int
  lastRequest : Int
  blocked : Bool
deriving DecidableEq

/-- The database: detections, api_calls rows (date, model_1_calls,
model_2_calls, total_calls) and rate_limits rows keyed by ip. -/
structure DbState where
  detections : List DetectionRow
  apiCalls : List (String × Nat × Nat × Nat)
  rateLimits : List (String × RateLimitRow)
deriving DecidableEq

/-- SELECT model_1_calls, model_2_calls, total_calls FROM api_calls for a
date; the zero triple when the row is missing. -/
def lookupApiCalls : List (String × Nat × Nat × Nat) → String → Nat × Nat × Nat
  | [], _ => (0, 0, 0)
  | (d, m1, m2, t) :: rest, today =>
      if d = today then (m1, m2, t) else lookupApiCalls rest today

/-- The incrementAPICalls upsert of db.js lines 93-100 with the arguments
(today, 1, 1, 2) of logDetection line 182. -/
def bumpApiCalls : List (String × Nat × Nat × Nat) → String →
    List (String × Nat × Nat × Nat)
  | [], today => [(today, 1, 1, 2)]
  | (d, m1, m2, t) :: rest, today =>
      if d = today then (d, m1 + 1, m2 + 1, t + 2) :: rest
      else (d, m1, m2, t) :: bumpApiCalls rest today

/-- getAPIUsageToday, db.js lines 229-241: total_calls of the row of the day,
0 when absent. -/
def getAPIUsageToday (s : DbState) (today : String) : Nat :=
  (lookupApiCalls s.apiCalls today).2.2

/-- logDetection, db.js lines 166-187: insert the detections row and, when the
attempt succeeded, add (1, 1, 2) to the api_calls row of the day
(2 API calls per detection: model 1 + model 2). -/
def logDetection (s : DbState) (now : Int) (today : String) (ip : String)
    (disease : Option String) (confidence : Option Int)
    (processingTime : Option Int) (success : Bool)
    (errorMessage : Option String) (userAgent : Option String) : DbState :=
  let s1 :=
    { s with detections :=
        s.detections ++
          [{ ip := ip, timestamp := now, disease := disease
             confidence := confidence, processingTime := processingTime
             success := success, errorMessage := errorMessage
             userAgent := userAgent }] }
  if success then { s1 with apiCalls := bumpApiCalls s1.apiCalls today }
  else s1

/-- getRecentDetections, db.js lines 103-107:
SELECT COUNT(*) FROM detections WHERE ip = ? AND timestamp > ? AND success = 1. -/
def getRecentDetections (s : DbState) (ip : String) (cutoff : Int) : Nat :=
  (s.detections.filter
    (fun d => decide (d.ip = ip ∧ d.timestamp > cutoff ∧ d.success = true))).length

/-- SELECT * FROM rate_limits WHERE ip = ?. -/
def lookupRateLimit : List (String × RateLimitRow) → String → Option RateLimitRow
  | [], _ => none
  | (i, r) :: rest, ip => if i = ip then some r else lookupRateLimit rest ip

/-- The updateRateLimit upsert of db.js lines 109-115. -/
def updateRateLimitRows : List (String × RateLimitRow) → String → Int →
    List (String × RateLimitRow)
  | [], ip, now => [(ip, { requestCount := 1, firstRequest := now
                           lastRequest := now, blocked := false })]
  | (i, r) :: rest, ip, now =>
      if i = ip then
        (i, { r with requestCount := r.requestCount + 1
                     lastRequest := now }) :: rest
      else (i, r) :: updateRateLimitRows rest ip now

/-- UPDATE rate_limits SET blocked = 1 WHERE ip = ? (db.js lines 121-123). -/
def blockRows : List (String × RateLimitRow) → String →
    List (String × RateLimitRow)
  | [], _ => []
  | (i, r) :: rest, ip =>
      if i = ip then (i, { r with blocked := true }) :: rest
      else (i, r) :: blockRows rest ip

/-- The blocked flag of the rate_limits row of an ip, false when no row. -/
def blockedFlag (rows : List (String × RateLimitRow)) (ip : String) : Bool :=
  match lookupRateLimit rows ip with
  | some r => r.blocked
  | none => false

/-- The result object of checkRateLimit (the count and remaining fields of the
source are not consumed by the pipeline and are omitted). -/
structure RateLimitResult where
  allowed : Bool
  reason : Option String
deriving DecidableEq

/-- checkRateLimit, db.js lines 192-224.  ledgerFails injects the internal
error of the surrounding try: the function then fails open, returning
allowed with no state change (db.js line 222). -/
def checkRateLimit (s : DbState) (ledgerFails : Bool) (ip : String) (now : Int)
    (windowMinutes maxRequests : Nat) : DbState × RateLimitResult :=
  if ledgerFails = true then (s, { allowed := true, reason := none })
  else
    let cutoff : Int := now - (windowMinutes : Int) * 60 * 1000
    let count := getRecentDetections s ip cutoff
    let s1 := { s with rateLimits := updateRateLimitRows s.rateLimits ip now }
    if blockedFlag s1.rateLimits ip = true then
      (s1, { allowed := false, reason := some "IP blocked due to abuse" })
    else if count ≥ maxRequests then
      if count ≥ maxRequests * 2 then
        ({ s1 with rateLimits := blockRows s1.rateLimits ip },
          { allowed := false
            reason := some "IP blocked due to excessive requests" })
      else (s1, { allowed := false, reason := some "Rate limit exceeded" })
    else (s1, { allowed := true, reason := none })

/- ===== The /api/detect handler (server lines 350-569) ===== -/

/-- MAX_CONCURRENT_UPLOADS, server line 20. -/
def MAX_CONCURRENT_UPLOADS : Nat := 10

/-- Process-wide server state: the activeUploads keys, the database and the
circuit breaker variables. -/
structure ServerState where
  activeUploads : List String
  db : DbState
  circuit : CircuitState
deriving DecidableEq

/-- One incoming request together with the environment the handler reads:
configuration, clock, and how each upstream call would settle. -/
structure RequestEnv where
  uploadId : String
  ip : String
  now : Int
  today : String
  dailyLimit : Nat
  hasFile : Bool
  validBody : Bool
  apiKeySet : Bool
  model1UrlSet : Bool
  model2UrlSet : Bool
  ledgerFails : Bool
  model1Transport : TransportResult
  model2Transport : TransportResult
  threshold1 : Int
  threshold2 : Int
  userAgent : Option String
deriving DecidableEq

/-- The response classes the handler can produce. -/
inductive DetectResponse where
  | capacityError
  | apiLimitError
  | rateLimitError (reason : Option String)
  | noFileError
  | invalidParamsError
  | modelConfigError
  | decisionReject (d : Decision)
  | ok (d : AcceptedData)
  | serverError (msg : String)
deriving DecidableEq

/-- Response, database and circuit state, and the number of upstream calls
issued, for everything inside the try after the slot is taken. -/
structure BodyResult where
  response : DetectResponse
  db : DbState
  circuit : CircuitState
  upstreamAttempts : Nat
deriving DecidableEq

/-- Everything of the try block after activeUploads.set (server lines
371-543): daily limit, ledger window check, file and body validation, model
URL check, the two upstream calls, and the decision sequence with its audit
logging.  In this timeless model the per-request elapsed time is 0. -/
def detectBody (db0 : DbState) (circ0 : CircuitState) (env : RequestEnv) :
    BodyResult :=
  if getAPIUsageToday db0 env.today ≥ env.dailyLimit then
    { response := .apiLimitError, db := db0, circuit := circ0
      upstreamAttempts := 0 }
  else
    let rl := checkRateLimit db0 env.ledgerFails env.ip env.now 60 20
    let db1 := rl.1
    if rl.2.allowed = false then
      { response := .rateLimitError rl.2.reason
        db := logDetection db1 env.now env.today env.ip none none none false
          rl.2.reason env.userAgent
        circuit := circ0, upstreamAttempts := 0 }
    else if env.hasFile = false then
      { response := .noFileError, db := db1, circuit := circ0
        upstreamAttempts := 0 }
    else if env.validBody = false then
      { response := .invalidParamsError, db := db1, circuit := circ0
        upstreamAttempts := 0 }
    else if env.model1UrlSet = false ∨ env.model2UrlSet = false then
      { response := .modelConfigError, db := db1, circuit := circ0
        upstreamAttempts := 0 }
    else
      let r1 := callRoboflowAPI circ0 env.now env.apiKeySet true
        env.model1Transport
      let r2 := callRoboflowAPI r1.state env.now env.apiKeySet true
        env.model2Transport
      match r1.result, r2.result with
      | .err msg, _ =>
        { response := .serverError (sanitizeError msg)
          db := logDetection db1 env.now env.today env.ip none none (some 0)
            false (some msg) env.userAgent
          circuit := r2.state, upstreamAttempts := 2 }
      | .ok _, .err msg =>
        { response := .serverError (sanitizeError msg)
          db := logDetection db1 env.now env.today env.ip none none (some 0)
            false (some msg) env.userAgent
          circuit := r2.state, upstreamAttempts := 2 }
      | .ok model1Data, .ok model2Data =>
        match detectDecision model1Data model2Data env.threshold1
          env.threshold2 with
        | .noPrimaryPrediction =>
          { response := .decisionReject .noPrimaryPrediction
            db := logDetection db1 env.now env.today env.ip none none (some 0)
              false (some "No predictions from model 1") env.userAgent
            circuit := r2.state, upstreamAttempts := 2 }
        | .negativeClassDetected c =>
          { response := .decisionReject (.negativeClassDetected c)
            db := logDetection db1 env.now env.today env.ip none (some c)
              (some 0) false (some "Not calamansi detected") env.userAgent
            circuit := r2.state, upstreamAttempts := 2 }
        | .lowPrimaryConfidence cls c =>
          { response := .decisionReject (.lowPrimaryConfidence cls c)
            db := logDetection db1 env.now env.today env.ip (some cls) (some c)
              (some 0) false (some "Low confidence") env.userAgent
            circuit := r2.state, upstreamAttempts := 2 }
        | .noSecondaryPrediction cls c =>
          { response := .decisionReject (.noSecondaryPrediction cls c)
            db := logDetection db1 env.now env.today env.ip (some cls) (some c)
              (some 0) false (some "No disease predictions") env.userAgent
            circuit := r2.state, upstreamAttempts := 2 }
        | .lowSecondaryConfidence cls c =>
          { response := .decisionReject (.lowSecondaryConfidence cls c)
            db := logDetection db1 env.now env.today env.ip (some cls) (some c)
              (some 0) false (some "Low disease confidence") env.userAgent
            circuit := r2.state, upstreamAttempts := 2 }
        | .accepted d =>
          let td := (topPred model2Data.predictions).getD
            { cls := "", confidence := 0, x := 0, y := 0, width := 0
              height := 0 }
          { response := .ok d
            db := logDetection db1 env.now env.today env.ip (some td.cls)
              (some td.confidence) (some 0) true none env.userAgent
            circuit := r2.state, upstreamAttempts := 2 }

/-- activeUploads.set(uploadId, true), server line 369, on the key list. -/
def insertUpload (l : List String) (uploadId : String) : List String :=
  if uploadId ∈ l then l else uploadId :: l

/-- Result of one full handler run, with the slot accounting the admission
claims are about: acquires counts size increases of activeUploads, releases
counts deletes that removed a present key, peakActive is the largest size
reached during the run. -/
structure HandlerResult where
  response : DetectResponse
  state : ServerState
  acquires : Nat
  releases : Nat
  peakActive : Nat
  upstreamAttempts : Nat
deriving DecidableEq

/-- The /api/detect handler, server lines 350-569: the capacity gate (CHECK 1)
and slot take, the try body, and the finally block that always deletes the
uploadId from activeUploads. -/
def detectHandler (s : ServerState) (env : RequestEnv) : HandlerResult :=
  if s.activeUploads.length ≥ MAX_CONCURRENT_UPLOADS then
    { response := .capacityError
      state := { s with activeUploads := s.activeUploads.erase env.uploadId }
      acquires := 0
      releases := if env.uploadId ∈ s.activeUploads then 1 else 0
      peakActive := s.activeUploads.length
      upstreamAttempts := 0 }
  else
    let active1 := insertUpload s.activeUploads env.uploadId
    let b := detectBody s.db s.circuit env
    { response := b.response
      state := { activeUploads := active1.erase env.uploadId, db := b.db
                 circuit := b.circuit }
      acquires := if env.uploadId ∈ s.activeUploads then 0 else 1
      releases := if env.uploadId ∈ active1 then 1 else 0
      peakActive := active1.length
      upstreamAttempts := b.upstreamAttempts }

/-- Discriminators used by the handler-level theorems. -/
def isOk : DetectResponse → Bool
  | .ok _ => true
  | _ => false

/-- True exactly on the window rate-limit rejection response. -/
def isRateLimited : DetectResponse → Bool
  | .rateLimitError _ => true
  | _ => false

/- ===== Helper lemmas ===== -/

theorem maxStep_self (p : Prediction) : maxStep p p = p := by
  simp [maxStep]

theorem find_max_fold (ps : List Prediction) : ∀ p : Prediction,
    (p :: ps).find? (isMaxIn (p :: ps)) = some (ps.foldl maxStep p) := by
  induction ps with
  | nil =>
    intro p
    apply List.find?_cons_of_pos
    simp [isMaxIn]
  | cons b bs ih =>
    intro p
    by_cases hc : p.confidence < b.confidence
    · have hfun : isMaxIn (p :: b :: bs) = isMaxIn (b :: bs) := by
        funext x
        simp only [isMaxIn, List.all_cons]
        by_cases hb : b.confidence ≤ x.confidence
        · have hp : p.confidence ≤ x.confidence := le_trans (le_of_lt hc) hb
          simp [hb, hp]
        · simp [hb]
      have hpredp : ¬ isMaxIn (b :: bs) p = true := by
        simp only [isMaxIn, List.all_cons, Bool.and_eq_true, decide_eq_true_eq]
        rintro ⟨h1, -⟩
        exact absurd h1 (not_le.mpr hc)
      have hms : maxStep p b = b := by simp [maxStep, hc]
      rw [hfun, List.find?_cons_of_neg _ hpredp, ih b, List.foldl_cons, hms]
    · have hbp : b.confidence ≤ p.confidence := not_lt.mp hc
      have hms : maxStep p b = p := by
        simp only [maxStep, gt_iff_lt, if_neg hc]
      have hfun : isMaxIn (p :: b :: bs) = isMaxIn (p :: bs) := by
        funext x
        simp only [isMaxIn, List.all_cons]
        by_cases hp : p.confidence ≤ x.confidence
        · have hbx : b.confidence ≤ x.confidence := le_trans hbp hp
          simp [hp, hbx]
        · simp [hp]
      rw [hfun, List.foldl_cons, hms, ← ih p]
      by_cases hqp : isMaxIn (p :: bs) p = true
      · rw [List.find?_cons_of_pos _ hqp, List.find?_cons_of_pos _ hqp]
      · have hqb : ¬ isMaxIn (p :: bs) b = true := by
          intro hb2
          apply hqp
          simp only [isMaxIn, List.all_eq_true, decide_eq_true_eq] at hb2 ⊢
          intro x hx
          exact le_trans (hb2 x hx) hbp
        rw [List.find?_cons_of_neg _ hqp, List.find?_cons_of_neg _ hqb,
          List.find?_cons_of_neg _ hqp]

theorem specTop_eq_topPred (l : List Prediction) : specTop l = topPred l := by
  cases l with
  | nil => rfl
  | cons p ps =>
    show (p :: ps).find? (isMaxIn (p :: ps)) = some ((p :: ps).foldl maxStep p)
    rw [List.foldl_cons, maxStep_self]
    exact find_max_fold ps p

theorem negativeClassSpec_eq (s : String) :
    negativeClassSpec s = isNotCalamansi s := by
  unfold negativeClassSpec isNotCalamansi negativeSpellings
  rw [Bool.eq_iff_iff]
  simp only [Bool.or_eq_true, beq_iff_eq, List.elem_iff, List.mem_cons,
    List.mem_singleton, List.not_mem_nil, or_false]
  tauto

theorem callRoboflowAPI_open_cooldown (cs : CircuitState) (now : Int)
    (k u : Bool) (t : TransportResult) (ho : cs.circuitOpen = true)
    (hw : now - cs.lastFailureTime < 60000) :
    callRoboflowAPI cs now k u t =
      { state := cs, networkCalled := false
        result := .err "Service temporarily unavailable - too many failures" } := by
  unfold callRoboflowAPI
  rw [if_pos ⟨ho, hw⟩]

theorem callRoboflowAPI_open_expired (cs : CircuitState) (now : Int)
    (k u : Bool) (t : TransportResult) (ho : cs.circuitOpen = true)
    (hw : ¬ now - cs.lastFailureTime < 60000) :
    callRoboflowAPI cs now k u t =
      callRoboflowAPI ⟨0, false, cs.lastFailureTime⟩ now k u t := by
  unfold callRoboflowAPI
  rw [if_neg (fun hand => hw hand.2)]
  simp [ho]

theorem callRoboflowAPI_closed_failure (cs : CircuitState) (now : Int)
    (t : TransportResult) (ho : cs.circuitOpen = false)
    (hf : isFailureTransport t = true) :
    (callRoboflowAPI cs now true true t).state =
      { apiFailureCount := cs.apiFailureCount + 1
        circuitOpen := if cs.apiFailureCount + 1 ≥ 5 then true else false
        lastFailureTime := now } := by
  unfold callRoboflowAPI
  rw [if_neg (fun hand => by
    have h1 := hand.1
    rw [ho] at h1
    simp at h1)]
  cases t with
  | response status data dataText =>
    have hst : status ≠ 200 := by simpa [isFailureTransport] using hf
    simp [ho, hst, recordFailure]
  | axiosFailure code nm rs msg =>
    simp [ho, recordFailure]

theorem callRoboflowAPI_closed_success (cs : CircuitState) (now : Int)
    (data : ModelData) (dataText : String) (ho : cs.circuitOpen = false) :
    callRoboflowAPI cs now true true (.response 200 data dataText) =
      { state := ⟨0, false, cs.lastFailureTime⟩, networkCalled := true
        result := .ok data } := by
  unfold callRoboflowAPI
  rw [if_neg (fun hand => by
    have h1 := hand.1
    rw [ho] at h1
    simp at h1)]
  simp [ho]

theorem lookupApiCalls_bump (l : List (String × Nat × Nat × Nat))
    (today : String) :
    (lookupApiCalls (bumpApiCalls l today) today).2.2
      = (lookupApiCalls l today).2.2 + 2 := by
  induction l with
  | nil => simp [bumpApiCalls, lookupApiCalls]
  | cons hd tl ih =>
    obtain ⟨dt, m1, m2, t⟩ := hd
    by_cases hdt : dt = today
    · simp [bumpApiCalls, lookupApiCalls, hdt]
    · simp [bumpApiCalls, lookupApiCalls, hdt, ih]

theorem getAPIUsageToday_logDetection_true (s : DbState) (now : Int)
    (today ip : String) (dz : Option String) (cf pt : Option Int)
    (em ua : Option String) :
    getAPIUsageToday (logDetection s now today ip dz cf pt true em ua) today
      = getAPIUsageToday s today + 2 := by
  unfold logDetection getAPIUsageToday
  dsimp only
  exact lookupApiCalls_bump s.apiCalls today

theorem getAPIUsageToday_checkRateLimit (s : DbState) (f : Bool) (ip : String)
    (now : Int) (w m : Nat) (today : String) :
    getAPIUsageToday (checkRateLimit s f ip now w m).1 today
      = getAPIUsageToday s today := by
  unfold checkRateLimit
  split
  · rfl
  · dsimp only
    split
    · rfl
    · split
      · split
        · rfl
        · rfl
      · rfl

theorem checkRateLimit_fails (s : DbState) (ip : String) (now : Int)
    (w m : Nat) :
    checkRateLimit s true ip now w m = (s, { allowed := true, reason := none }) := by
  unfold checkRateLimit
  rw [if_pos rfl]

theorem lookupRateLimit_update (rows : List (String × RateLimitRow))
    (ip : String) (now : Int) :
    lookupRateLimit (updateRateLimitRows rows ip now) ip =
      some (match lookupRateLimit rows ip with
        | some r => { r with requestCount := r.requestCount + 1
                             lastRequest := now }
        | none => { requestCount := 1, firstRequest := now
                    lastRequest := now, blocked := false }) := by
  induction rows with
  | nil => simp [updateRateLimitRows, lookupRateLimit]
  | cons hd tl ih =>
    obtain ⟨i, r⟩ := hd
    by_cases hip : i = ip <;>
      simp [updateRateLimitRows, lookupRateLimit, hip, ih]

theorem blockedFlag_update (rows : List (String × RateLimitRow)) (ip : String)
    (now : Int) :
    blockedFlag (updateRateLimitRows rows ip now) ip = blockedFlag rows ip := by
  unfold blockedFlag
  rw [lookupRateLimit_update]
  cases lookupRateLimit rows ip <;> rfl

theorem lookupRateLimit_update_isSome (rows : List (String × RateLimitRow))
    (ip : String) (now : Int) :
    (lookupRateLimit (updateRateLimitRows rows ip now) ip).isSome = true := by
  rw [lookupRateLimit_update]
  rfl

theorem blockedFlag_blockRows (rows : List (String × RateLimitRow))
    (ip : String) (h : (lookupRateLimit rows ip).isSome = true) :
    blockedFlag (blockRows rows ip) ip = true := by
  induction rows with
  | nil => simp [lookupRateLimit] at h
  | cons hd tl ih =>
    obtain ⟨i, r⟩ := hd
    by_cases hip : i = ip
    · simp [blockRows, blockedFlag, lookupRateLimit, hip]
    · have h2 : (lookupRateLimit tl ip).isSome = true := by
        simpa [lookupRateLimit, hip] using h
      simpa [blockRows, blockedFlag, lookupRateLimit, hip] using ih h2

theorem detectBody_budget (db0 : DbState) (circ0 : CircuitState)
    (env : RequestEnv)
    (hbudget : getAPIUsageToday db0 env.today ≥ env.dailyLimit) :
    detectBody db0 circ0 env =
      { response := .apiLimitError, db := db0, circuit := circ0
        upstreamAttempts := 0 } := by
  unfold detectBody
  rw [if_pos hbudget]

theorem detectBody_success_db (db0 : DbState) (circ0 : CircuitState)
    (env : RequestEnv) (d : AcceptedData) :
    (detectBody db0 circ0 env).response = .ok d →
    getAPIUsageToday (detectBody db0 circ0 env).db env.today
      = getAPIUsageToday db0 env.today + 2 := by
  unfold detectBody
  dsimp only
  repeat' split
  all_goals intro h
  all_goals first
    | (rw [getAPIUsageToday_logDetection_true, getAPIUsageToday_checkRateLimit])
    | (exact absurd h (by simp))

/- ===== Claim theorems ===== -/

/-- Claim C6: the decision pipeline applies its checks in the spec order and
terminates on the first failing one; the primary top prediction is the
arg-max by confidence with first occurrence winning ties; the negative-class
test is the substring and spelling test on the lowercased label with the 0.70
cutoff; the low-confidence test applies only to non-negative labels against
the default-0.50 threshold; secondary emptiness and threshold follow; an
acceptance surfaces confidences as percentages rounded to 2 decimal places
while all threshold comparisons use the fractional form. -/
theorem c6_decision_engine_order (m1 m2 : ModelData) (t1 t2 : Int) :
    coreOf (detectDecision m1 m2 t1 t2) = decisionSpec m1 m2 t1 t2 := by
  unfold detectDecision decisionSpec
  rw [specTop_eq_topPred, specTop_eq_topPred]
  cases htop : topPred m1.predictions with
  | none => rfl
  | some top =>
    simp only [negativeClassSpec_eq]
    by_cases hA : isNotCalamansi (lowerString top.cls) = true ∧
        top.confidence > 700000
    · simp [hA, coreOf]
    · by_cases hB : isNotCalamansi (lowerString top.cls) = false ∧
          top.confidence < t1
      · simp [hA, hB, coreOf]
      · cases hsec : topPred m2.predictions with
        | none => simp [hA, hB, coreOf]
        | some sec =>
          by_cases hC : sec.confidence < t2
          · simp [hA, hB, hsec, hC, coreOf]
          · simp [hA, hB, hsec, hC, coreOf]

/-- Concrete inputs for the candidate-list claim: the secondary response lists
a 0.60-confidence entry before a 0.90-confidence entry. -/
def c5m1 : ModelData := ⟨[⟨"calamansi", 900000, 0, 0, 0, 0⟩], 10, 10⟩

/-- Secondary response of the candidate-list counterexample. -/
def c5m2 : ModelData :=
  ⟨[⟨"a", 600000, 1, 2, 3, 4⟩, ⟨"b", 900000, 5, 6, 7, 8⟩], 10, 10⟩

/-- Claim C5 is false on the code: on an accepted outcome the surfaced
candidate list is the first five secondary predictions in response order
(here a before b), not the top five ordered by confidence (which would put
the 0.90-confidence b first). -/
theorem c5_top_candidates_counterexample :
    allPredsOf (detectDecision c5m1 c5m2 500000 500000)
        = some [⟨"a", 6000, 1, 2, 3, 4⟩, ⟨"b", 9000, 5, 6, 7, 8⟩]
  ∧ topCandidatesSpec c5m2.predictions
        = [⟨"b", 9000, 5, 6, 7, 8⟩, ⟨"a", 6000, 1, 2, 3, 4⟩]
  ∧ allPredsOf (detectDecision c5m1 c5m2 500000 500000)
        ≠ some (topCandidatesSpec c5m2.predictions) := by
  refine ⟨by decide, by decide, by decide⟩

/-- Claim C5 (amended): whenever the decision is Accepted, the candidate list
it carries is the first 5 entries of the secondary prediction set in the
original response order, each confidence rendered as a percentage rounded to
2 decimal places. -/
theorem c5_first_five_candidates (m1 m2 : ModelData) (t1 t2 : Int)
    (d : AcceptedData) (h : detectDecision m1 m2 t1 t2 = .accepted d) :
    d.allPredictions = (m2.predictions.take 5).map toCandidate := by
  unfold detectDecision at h
  dsimp only at h
  repeat' split at h
  all_goals first
    | (injection h with h2; rw [← h2])
    | injection h

theorem c5_first_five_candidates_witness :
    detectDecision c5m1 c5m2 500000 500000 = .accepted
      { model1Class := "calamansi", model1Confidence := 9000
        model2Class := "b", model2Confidence := 9000
        boundingBox := ⟨5, 6, 7, 8⟩, imageWidth := 10, imageHeight := 10
        allPredictions := [⟨"a", 6000, 1, 2, 3, 4⟩, ⟨"b", 9000, 5, 6, 7, 8⟩] }
  ∧ ({ model1Class := "calamansi", model1Confidence := 9000
       model2Class := "b", model2Confidence := 9000
       boundingBox := ⟨5, 6, 7, 8⟩, imageWidth := 10, imageHeight := 10
       allPredictions := [⟨"a", 6000, 1, 2, 3, 4⟩, ⟨"b", 9000, 5, 6, 7, 8⟩]
       : AcceptedData }).allPredictions
      = (c5m2.predictions.take 5).map toCandidate :=
  ⟨by decide, c5_first_five_candidates c5m1 c5m2 500000 500000 _ (by decide)⟩

/-- Claim C9: when the primary top prediction is negative-class with
confidence at most 0.70, the primary stage never rejects: the outcome is
neither NegativeClassDetected nor LowPrimaryConfidence, whatever the
thresholds, and with a strong enough secondary response an Accepted outcome
whose primaryClass is the negative-class label is reachable. -/
theorem c9_negative_low_confidence_passes_primary (m1 m2 : ModelData)
    (t1 t2 : Int) (tp : Prediction)
    (htop : topPred m1.predictions = some tp)
    (hneg : isNotCalamansi (lowerString tp.cls) = true)
    (hle : tp.confidence ≤ 700000) :
    (∀ c, detectDecision m1 m2 t1 t2 ≠ .negativeClassDetected c)
  ∧ (∀ cls c, detectDecision m1 m2 t1 t2 ≠ .lowPrimaryConfidence cls c)
  ∧ (t2 ≤ 1000000 → ∃ m2b d, detectDecision m1 m2b t1 t2 = .accepted d
      ∧ d.model1Class = lowerString tp.cls) := by
  have hnA : ¬ (isNotCalamansi (lowerString tp.cls) = true ∧
      tp.confidence > 700000) := by
    rintro ⟨-, hgt⟩
    omega
  have hnB : ¬ (isNotCalamansi (lowerString tp.cls) = false ∧
      tp.confidence < t1) := by
    rintro ⟨hfalse, -⟩
    rw [hneg] at hfalse
    cases hfalse
  refine ⟨?_, ?_, ?_⟩
  · intro c
    unfold detectDecision
    rw [htop]
    simp only [if_neg hnA, if_neg hnB]
    cases topPred m2.predictions with
    | none => simp
    | some sec => by_cases hC : sec.confidence < t2 <;> simp [hC]
  · intro cls c
    unfold detectDecision
    rw [htop]
    simp only [if_neg hnA, if_neg hnB]
    cases topPred m2.predictions with
    | none => simp
    | some sec => by_cases hC : sec.confidence < t2 <;> simp [hC]
  · intro ht2
    refine ⟨⟨[⟨"disease", 1000000, 0, 0, 0, 0⟩], 0, 0⟩,
      { model1Class := lowerString tp.cls
        model1Confidence := pctRound2 tp.confidence
        model2Class := lowerString "disease"
        model2Confidence := pctRound2 1000000
        boundingBox := ⟨0, 0, 0, 0⟩
        imageWidth := 0, imageHeight := 0
        allPredictions := [⟨"disease", pctRound2 1000000, 0, 0, 0, 0⟩] },
      ?_, rfl⟩
    unfold detectDecision
    rw [htop]
    simp only [if_neg hnA, if_neg hnB]
    have hsec : topPred [(⟨"disease", 1000000, 0, 0, 0, 0⟩ : Prediction)]
        = some ⟨"disease", 1000000, 0, 0, 0, 0⟩ := rfl
    rw [hsec]
    dsimp only
    rw [if_neg (by omega : ¬ (1000000 : Int) < t2)]
    rfl

/-- Concrete primary response whose top prediction is negative-class with low
confidence. -/
def c9m1 : ModelData := ⟨[⟨"Not Sure", 400000, 0, 0, 0, 0⟩], 5, 5⟩

/-- A secondary response used to instantiate claim C9. -/
def c9m2 : ModelData := ⟨[⟨"leaf_spot", 800000, 1, 1, 2, 2⟩], 5, 5⟩

theorem c9_negative_low_confidence_passes_primary_witness :
    topPred c9m1.predictions = some ⟨"Not Sure", 400000, 0, 0, 0, 0⟩
  ∧ isNotCalamansi (lowerString "Not Sure") = true
  ∧ ((400000 : Int) ≤ 700000)
  ∧ detectDecision c9m1 c9m2 500000 500000 ≠ .negativeClassDetected 400000
  ∧ detectDecision c9m1 c9m2 500000 500000 ≠
      .lowPrimaryConfidence "not sure" 400000 :=
  ⟨by decide, by decide, by decide,
    (c9_negative_low_confidence_passes_primary c9m1 c9m2 500000 500000
      ⟨"Not Sure", 400000, 0, 0, 0, 0⟩ (by decide) (by decide) (by decide)).1
      400000,
    (c9_negative_low_confidence_passes_primary c9m1 c9m2 500000 500000
      ⟨"Not Sure", 400000, 0, 0, 0, 0⟩ (by decide) (by decide) (by decide)).2.1
      "not sure" 400000⟩

/-- Empty upstream payload used by the inference client theorems. -/
def emptyModel : ModelData := ⟨[], 0, 0⟩

/-- Claim C1 is false on the code: a received HTTP 429 (or 403, 400, or any
other non-200) response resolves through validateStatus, is thrown as a plain
Error and reaches the classifier with no code, the name Error and no response
field, so it is classified as a NetworkError message instead of the claimed
status-specific classification; the status branch of the classifier, which
would map 429 correctly, is bypassed for every received response. -/
theorem c1_http_status_misclassified :
    (callRoboflowAPI ⟨0, false, 0⟩ 0 true true
        (.response 429 emptyModel "body")).result
      = .err "Network error - HTTP 429: body"
  ∧ (callRoboflowAPI ⟨0, false, 0⟩ 0 true true
        (.response 429 emptyModel "body")).result
      ≠ .err "API rate limit exceeded"
  ∧ (callRoboflowAPI ⟨0, false, 0⟩ 0 true true
        (.response 403 emptyModel "body")).result
      = .err "Network error - HTTP 403: body"
  ∧ (callRoboflowAPI ⟨0, false, 0⟩ 0 true true
        (.response 400 emptyModel "body")).result
      = .err "Network error - HTTP 400: body"
  ∧ (callRoboflowAPI ⟨0, false, 0⟩ 0 true true
        (.response 503 emptyModel "body")).result
      = .err "Network error - HTTP 503: body"
  ∧ classifyAxiosError none "Error" (some 429) "m" = "API rate limit exceeded" := by
  refine ⟨by decide, by decide, by decide, by decide, by decide, by decide⟩

/-- Claim C4: the circuit opens after 5 consecutive classified failures
through the shared counter; while open and within the 60s cooldown since the
last recorded failure every call fails immediately with no network call and
no state change; on the next attempt after the cooldown the breaker behaves
exactly as a closed breaker with failure count 0 (lazy reset); a successful
call resets the consecutive-failure count to 0. -/
theorem c4_circuit_breaker_state_machine :
    (∀ cs now k u t, cs.circuitOpen = true →
      now - cs.lastFailureTime < 60000 →
      callRoboflowAPI cs now k u t =
        { state := cs, networkCalled := false
          result := .err "Service temporarily unavailable - too many failures" })
  ∧ (∀ cs now k u t, cs.circuitOpen = true →
      ¬ now - cs.lastFailureTime < 60000 →
      callRoboflowAPI cs now k u t =
        callRoboflowAPI ⟨0, false, cs.lastFailureTime⟩ now k u t)
  ∧ (∀ cs now t, cs.circuitOpen = false → isFailureTransport t = true →
      (callRoboflowAPI cs now true true t).state =
        { apiFailureCount := cs.apiFailureCount + 1
          circuitOpen := if cs.apiFailureCount + 1 ≥ 5 then true else false
          lastFailureTime := now })
  ∧ (∀ cs, cs.circuitOpen = false → cs.apiFailureCount = 0 →
      ∀ na nb nc nd ne ta tb tc td te,
        isFailureTransport ta = true → isFailureTransport tb = true →
        isFailureTransport tc = true → isFailureTransport td = true →
        isFailureTransport te = true →
        (callRoboflowAPI
          (callRoboflowAPI
            (callRoboflowAPI
              (callRoboflowAPI
                (callRoboflowAPI cs na true true ta).state
                nb true true tb).state
              nc true true tc).state
            nd true true td).state
          ne true true te).state = ⟨5, true, ne⟩)
  ∧ (∀ cs now data dataText, cs.circuitOpen = false →
      callRoboflowAPI cs now true true (.response 200 data dataText) =
        { state := ⟨0, false, cs.lastFailureTime⟩, networkCalled := true
          result := .ok data }) := by
  refine ⟨?_, ?_, ?_, ?_, ?_⟩
  · intro cs now k u t ho hw
    exact callRoboflowAPI_open_cooldown cs now k u t ho hw
  · intro cs now k u t ho hw
    exact callRoboflowAPI_open_expired cs now k u t ho hw
  · intro cs now t ho hf
    exact callRoboflowAPI_closed_failure cs now t ho hf
  · intro cs ho h0 na nb nc nd ne ta tb tc td te fa fb fc fd fe
    have e1 : (callRoboflowAPI cs na true true ta).state = ⟨1, false, na⟩ := by
      rw [callRoboflowAPI_closed_failure cs na ta ho fa, h0]
      norm_num
    rw [e1]
    have e2 : (callRoboflowAPI ⟨1, false, na⟩ nb true true tb).state
        = ⟨2, false, nb⟩ := by
      rw [callRoboflowAPI_closed_failure _ nb tb rfl fb]
      norm_num
    rw [e2]
    have e3 : (callRoboflowAPI ⟨2, false, nb⟩ nc true true tc).state
        = ⟨3, false, nc⟩ := by
      rw [callRoboflowAPI_closed_failure _ nc tc rfl fc]
      norm_num
    rw [e3]
    have e4 : (callRoboflowAPI ⟨3, false, nc⟩ nd true true td).state
        = ⟨4, false, nd⟩ := by
      rw [callRoboflowAPI_closed_failure _ nd td rfl fd]
      norm_num
    rw [e4]
    rw [callRoboflowAPI_closed_failure _ ne te rfl fe]
    norm_num
  · intro cs now data dataText ho
    exact callRoboflowAPI_closed_success cs now data dataText ho

/-- A transport rejection used to drive the breaker theorems. -/
def failTransport : TransportResult := .axiosFailure none "Error" none "boom"

/-- A well-formed upstream response used by the handler-level witnesses. -/
def wm1 : ModelData := ⟨[⟨"calamansi", 900000, 1, 2, 3, 4⟩], 100, 200⟩

/-- A request environment that runs the full pipeline to a success. -/
def wenv : RequestEnv :=
  { uploadId := "u1", ip := "1.2.3.4", now := 1000000
    today := "2026-10-12", dailyLimit := 5000, hasFile := true
    validBody := true, apiKeySet := true, model1UrlSet := true
    model2UrlSet := true, ledgerFails := false
    model1Transport := .response 200 wm1 "d1"
    model2Transport := .response 200 wm1 "d2"
    threshold1 := 500000, threshold2 := 500000, userAgent := none }

/-- Claim C2: the admission slot bookkeeping: every admitted request performs
exactly one acquire and exactly one release whatever path the body takes
(success, decision rejection, or any injected failure is contained in env);
a request arriving at the ceiling is rejected with the capacity error without
acquiring; the activeUploads size is restored at exit and never exceeds the
ceiling of 10 during the run. -/
theorem c2_admission_slot_pairing (s : ServerState) (env : RequestEnv)
    (hfresh : env.uploadId ∉ s.activeUploads) :
    ((detectHandler s env).state.activeUploads = s.activeUploads)
  ∧ (s.activeUploads.length ≥ MAX_CONCURRENT_UPLOADS →
      (detectHandler s env).response = .capacityError
      ∧ (detectHandler s env).acquires = 0
      ∧ (detectHandler s env).peakActive = s.activeUploads.length)
  ∧ (s.activeUploads.length < MAX_CONCURRENT_UPLOADS →
      (detectHandler s env).acquires = 1 ∧ (detectHandler s env).releases = 1)
  ∧ (s.activeUploads.length ≤ MAX_CONCURRENT_UPLOADS →
      (detectHandler s env).peakActive ≤ MAX_CONCURRENT_UPLOADS) := by
  by_cases hcap : s.activeUploads.length ≥ MAX_CONCURRENT_UPLOADS
  · unfold detectHandler
    rw [if_pos hcap]
    refine ⟨?_, fun _ => ⟨rfl, rfl, rfl⟩, fun hlt => absurd hcap (by omega),
      fun hle => ?_⟩
    · simpa using List.erase_of_not_mem hfresh
    · simpa using hle
  · have hins : insertUpload s.activeUploads env.uploadId
        = env.uploadId :: s.activeUploads := by
      unfold insertUpload
      rw [if_neg hfresh]
    unfold detectHandler
    rw [if_neg hcap]
    dsimp only
    rw [hins]
    refine ⟨?_, fun hc => absurd hc hcap, fun _ => ⟨?_, ?_⟩, fun _ => ?_⟩
    · simp
    · simp [hfresh]
    · simp
    · simp only [List.length_cons]
      omega

theorem c2_admission_slot_pairing_witness :
    ("u1" ∉ (⟨[], ⟨[], [], []⟩, ⟨0, false, 0⟩⟩ : ServerState).activeUploads)
  ∧ (detectHandler ⟨[], ⟨[], [], []⟩, ⟨0, false, 0⟩⟩ wenv).state.activeUploads
      = []
  ∧ ((⟨[], ⟨[], [], []⟩, ⟨0, false, 0⟩⟩ : ServerState).activeUploads.length
      < MAX_CONCURRENT_UPLOADS)
  ∧ (detectHandler ⟨[], ⟨[], [], []⟩, ⟨0, false, 0⟩⟩ wenv).acquires = 1
  ∧ (detectHandler ⟨[], ⟨[], [], []⟩, ⟨0, false, 0⟩⟩ wenv).releases = 1 :=
  ⟨by decide,
    (c2_admission_slot_pairing ⟨[], ⟨[], [], []⟩, ⟨0, false, 0⟩⟩ wenv
      (by decide)).1,
    by decide,
    ((c2_admission_slot_pairing ⟨[], ⟨[], [], []⟩, ⟨0, false, 0⟩⟩ wenv
      (by decide)).2.2.1 (by decide)).1,
    ((c2_admission_slot_pairing ⟨[], ⟨[], [], []⟩, ⟨0, false, 0⟩⟩ wenv
      (by decide)).2.2.1 (by decide)).2⟩

/-- A database whose api_calls row for the day of wenv already carries 5000
total calls, the daily ceiling of wenv. -/
def c3db : DbState := ⟨[], [("2026-10-12", 2500, 2500, 5000)], []⟩

/-- Claim C3 is false on the code: with the daily ceiling reached and capacity
available, the request is indeed rejected with the daily-limit error, but the
slot counter is touched first: the handler acquires the slot (acquires = 1,
peak size 1 above entry) before consulting the daily counter, and only the
finally block restores it. -/
theorem c3_budget_touches_slot_counterexample :
    (detectHandler ⟨[], c3db, ⟨0, false, 0⟩⟩ wenv).response = .apiLimitError
  ∧ (detectHandler ⟨[], c3db, ⟨0, false, 0⟩⟩ wenv).acquires = 1
  ∧ (detectHandler ⟨[], c3db, ⟨0, false, 0⟩⟩ wenv).peakActive = 1 := by
  refine ⟨by decide, by decide, by decide⟩

/-- Claim C3 (amended): when the day total has reached the daily ceiling and
capacity is available, the request fails fast with the daily-limit rejection
and no upstream call is attempted, and the slot counter at exit equals its
state at entry; however the slot is acquired before the budget check (one
acquire and one release), because the capacity check and acquire precede the
budget check. -/
theorem c3_budget_check_after_acquire (s : ServerState) (env : RequestEnv)
    (hfresh : env.uploadId ∉ s.activeUploads)
    (hcap : s.activeUploads.length < MAX_CONCURRENT_UPLOADS)
    (hbudget : getAPIUsageToday s.db env.today ≥ env.dailyLimit) :
    (detectHandler s env).response = .apiLimitError
  ∧ (detectHandler s env).state = s
  ∧ (detectHandler s env).acquires = 1
  ∧ (detectHandler s env).releases = 1
  ∧ (detectHandler s env).upstreamAttempts = 0 := by
  have hnc : ¬ s.activeUploads.length ≥ MAX_CONCURRENT_UPLOADS := by omega
  have hins : insertUpload s.activeUploads env.uploadId
      = env.uploadId :: s.activeUploads := by
    unfold insertUpload
    rw [if_neg hfresh]
  unfold detectHandler
  rw [if_neg hnc]
  dsimp only
  rw [hins, detectBody_budget s.db s.circuit env hbudget]
  refine ⟨rfl, ?_, by simp [hfresh], by simp, rfl⟩
  simp

theorem c3_budget_check_after_acquire_witness :
    ("u1" ∉ (⟨[], c3db, ⟨0, false, 0⟩⟩ : ServerState).activeUploads)
  ∧ ((⟨[], c3db, ⟨0, false, 0⟩⟩ : ServerState).activeUploads.length
      < MAX_CONCURRENT_UPLOADS)
  ∧ (getAPIUsageToday c3db wenv.today ≥ wenv.dailyLimit)
  ∧ (detectHandler ⟨[], c3db, ⟨0, false, 0⟩⟩ wenv).response = .apiLimitError
  ∧ (detectHandler ⟨[], c3db, ⟨0, false, 0⟩⟩ wenv).state
      = ⟨[], c3db, ⟨0, false, 0⟩⟩ :=
  ⟨by decide, by decide, by decide,
    (c3_budget_check_after_acquire ⟨[], c3db, ⟨0, false, 0⟩⟩ wenv (by decide)
      (by decide) (by decide)).1,
    (c3_budget_check_after_acquire ⟨[], c3db, ⟨0, false, 0⟩⟩ wenv (by decide)
      (by decide) (by decide)).2.1⟩

/-- Claim C7 is false on the code: starting from an empty ledger, one
successful detection leaves the counter consulted by the admission check at
2, not 1: logDetection adds 2 (model 1 call + model 2 call) to total_calls
per successful detection. -/
theorem c7_counter_counts_pairs_counterexample :
    isOk (detectHandler ⟨[], ⟨[], [], []⟩, ⟨0, false, 0⟩⟩ wenv).response = true
  ∧ getAPIUsageToday
      (detectHandler ⟨[], ⟨[], [], []⟩, ⟨0, false, 0⟩⟩ wenv).state.db
      "2026-10-12" = 2
  ∧ getAPIUsageToday
      (detectHandler ⟨[], ⟨[], [], []⟩, ⟨0, false, 0⟩⟩ wenv).state.db
      "2026-10-12" ≠ 1 := by
  refine ⟨by decide, by decide, by decide⟩

/-- Claim C7 (amended): the daily counter consulted by the admission check
counts individual upstream calls, two per successful detection (model 1 +
model 2), so after N successful completions it reads 2N: every handler run
that answers with a success payload adds exactly 2 to the total for the day;
and once the total has reached the daily ceiling, the next request (with
capacity available) is rejected with the daily-limit error before any
upstream call is attempted. -/
theorem c7_counter_increments_by_two :
    (∀ (s : ServerState) (env : RequestEnv) (d : AcceptedData),
      (detectHandler s env).response = .ok d →
      getAPIUsageToday (detectHandler s env).state.db env.today
        = getAPIUsageToday s.db env.today + 2)
  ∧ (∀ (s : ServerState) (env : RequestEnv),
      getAPIUsageToday s.db env.today ≥ env.dailyLimit →
      s.activeUploads.length < MAX_CONCURRENT_UPLOADS →
      (detectHandler s env).response = .apiLimitError
      ∧ (detectHandler s env).upstreamAttempts = 0) := by
  constructor
  · intro s env d h
    by_cases hcap : s.activeUploads.length ≥ MAX_CONCURRENT_UPLOADS
    · unfold detectHandler at h
      rw [if_pos hcap] at h
      exact absurd h (by simp)
    · unfold detectHandler at h ⊢
      rw [if_neg hcap] at h ⊢
      dsimp only at h ⊢
      exact detectBody_success_db s.db s.circuit env d h
  · intro s env hbudget hcap
    have hnc : ¬ s.activeUploads.length ≥ MAX_CONCURRENT_UPLOADS := by omega
    unfold detectHandler
    rw [if_neg hnc]
    dsimp only
    rw [detectBody_budget s.db s.circuit env hbudget]
    exact ⟨rfl, rfl⟩

/-- The success payload of a run of wenv from the empty database. -/
def c7ok : AcceptedData :=
  { model1Class := "calamansi", model1Confidence := 9000
    model2Class := "calamansi", model2Confidence := 9000
    boundingBox := ⟨1, 2, 3, 4⟩, imageWidth := 100, imageHeight := 200
    allPredictions := [⟨"calamansi", 9000, 1, 2, 3, 4⟩] }

theorem c7_counter_increments_by_two_witness :
    (detectHandler ⟨[], ⟨[], [], []⟩, ⟨0, false, 0⟩⟩ wenv).response = .ok c7ok
  ∧ getAPIUsageToday
      (detectHandler ⟨[], ⟨[], [], []⟩, ⟨0, false, 0⟩⟩ wenv).state.db
      wenv.today
      = getAPIUsageToday (⟨[], [], []⟩ : DbState) wenv.today + 2
  ∧ (getAPIUsageToday c3db wenv.today ≥ wenv.dailyLimit)
  ∧ (detectHandler ⟨[], c3db, ⟨0, false, 0⟩⟩ wenv).response = .apiLimitError :=
  ⟨by decide,
    c7_counter_increments_by_two.1 ⟨[], ⟨[], [], []⟩, ⟨0, false, 0⟩⟩ wenv c7ok
      (by decide),
    by decide,
    (c7_counter_increments_by_two.2 ⟨[], c3db, ⟨0, false, 0⟩⟩ wenv (by decide)
      (by decide)).1⟩

/-- Claim C8: checkRateLimit returns not-allowed with a persistent block
written to the rate_limits row when the window count of the source reaches
twice the window ceiling; if the ledger itself fails internally the check
fails open (allowed, no state change); and with a failing ledger the pipeline
never answers with the window rate-limit rejection. -/
theorem c8_window_limit_block_and_fail_open :
    (∀ (s : DbState) (ip : String) (now : Int) (w maxr : Nat),
      getRecentDetections s ip (now - (w : Int) * 60 * 1000) ≥ maxr * 2 →
      (checkRateLimit s false ip now w maxr).2.allowed = false
      ∧ blockedFlag (checkRateLimit s false ip now w maxr).1.rateLimits ip
          = true)
  ∧ (∀ (s : DbState) (ip : String) (now : Int) (w maxr : Nat),
      checkRateLimit s true ip now w maxr
        = (s, { allowed := true, reason := none }))
  ∧ (∀ (s : ServerState) (env : RequestEnv), env.ledgerFails = true →
      isRateLimited (detectHandler s env).response = false) := by
  refine ⟨?_, ?_, ?_⟩
  · intro s ip now w maxr hcount
    unfold checkRateLimit
    rw [if_neg (by simp)]
    dsimp only
    by_cases hb : blockedFlag (updateRateLimitRows s.rateLimits ip now) ip
        = true
    · rw [if_pos hb]
      exact ⟨rfl, hb⟩
    · rw [if_neg hb]
      have hge : getRecentDetections s ip (now - (w : Int) * 60 * 1000)
          ≥ maxr := by omega
      rw [if_pos hge, if_pos hcount]
      refine ⟨rfl, ?_⟩
      exact blockedFlag_blockRows _ ip
        (lookupRateLimit_update_isSome s.rateLimits ip now)
  · intro s ip now w maxr
    exact checkRateLimit_fails s ip now w maxr
  · intro s env hl
    unfold detectHandler
    split
    · rfl
    · dsimp only
      unfold detectBody
      rw [hl, checkRateLimit_fails]
      dsimp only
      repeat' split
      all_goals first | rfl | simp_all

/-- One successful detection row of the abusive source of the C8 witness. -/
def c8row : DetectionRow :=
  ⟨"9.9.9.9", 500000, some "d", some 900000, some 10, true, none, none⟩

/-- A ledger holding 40 recent successful detections of one source. -/
def c8db : DbState := ⟨List.replicate 40 c8row, [], []⟩

/-- The environment of wenv with the ledger failing internally. -/
def envLF : RequestEnv := { wenv with ledgerFails := true }

theorem c8_window_limit_block_and_fail_open_witness :
    (getRecentDetections c8db "9.9.9.9" (4000000 - (60 : Int) * 60 * 1000)
      ≥ 20 * 2)
  ∧ (checkRateLimit c8db false "9.9.9.9" 4000000 60 20).2.allowed = false
  ∧ blockedFlag
      (checkRateLimit c8db false "9.9.9.9" 4000000 60 20).1.rateLimits
      "9.9.9.9" = true
  ∧ checkRateLimit c8db true "9.9.9.9" 4000000 60 20
      = (c8db, { allowed := true, reason := none })
  ∧ isRateLimited
      (detectHandler ⟨[], ⟨[], [], []⟩, ⟨0, false, 0⟩⟩ envLF).response = false
  ∧ isOk (detectHandler ⟨[], ⟨[], [], []⟩, ⟨0, false, 0⟩⟩ envLF).response
      = true :=
  ⟨by decide,
    (c8_window_limit_block_and_fail_open.1 c8db "9.9.9.9" 4000000 60 20
      (by decide)).1,
    (c8_window_limit_block_and_fail_open.1 c8db "9.9.9.9" 4000000 60 20
      (by decide)).2,
    c8_window_limit_block_and_fail_open.2.1 c8db "9.9.9.9" 4000000 60 20,
    c8_window_limit_block_and_fail_open.2.2
      ⟨[], ⟨[], [], []⟩, ⟨0, false, 0⟩⟩ envLF rfl,
    by decide⟩

/-- Claim C10: the sliding-window count of checkRateLimit includes only rows
recorded with success = 1: a source all of whose recorded attempts failed has
window count 0, is allowed through (for a positive ceiling, when not already
blocked), and is not auto-blocked. -/
theorem c10_window_counts_only_successes (s : DbState) (ip : String)
    (now : Int) (w maxr : Nat)
    (hfail : ∀ d ∈ s.detections, d.ip = ip → d.success = false)
    (hnb : blockedFlag s.rateLimits ip = false)
    (hmax : 0 < maxr) :
    getRecentDetections s ip (now - (w : Int) * 60 * 1000) = 0
  ∧ (checkRateLimit s false ip now w maxr).2
      = { allowed := true, reason := none }
  ∧ blockedFlag (checkRateLimit s false ip now w maxr).1.rateLimits ip
      = false := by
  have hcount : getRecentDetections s ip (now - (w : Int) * 60 * 1000) = 0 := by
    unfold getRecentDetections
    rw [List.length_eq_zero, List.filter_eq_nil_iff]
    intro d hd
    simp only [decide_eq_true_eq]
    rintro ⟨h1, -, h3⟩
    rw [hfail d hd h1] at h3
    cases h3
  have hupd : blockedFlag (updateRateLimitRows s.rateLimits ip now) ip
      = false := by
    rw [blockedFlag_update]
    exact hnb
  have hmain : checkRateLimit s false ip now w maxr
      = ({ s with rateLimits := updateRateLimitRows s.rateLimits ip now },
         { allowed := true, reason := none }) := by
    unfold checkRateLimit
    rw [if_neg (by simp)]
    dsimp only
    rw [hcount, if_neg (by simp [hupd]),
      if_neg (by omega : ¬ (0 : Nat) ≥ maxr)]
  refine ⟨hcount, by rw [hmain], ?_⟩
  rw [hmain]
  exact hupd

/-- A ledger where the source 7.7.7.7 has only failed attempts recorded while
another source has a successful one. -/
def c10db : DbState :=
  ⟨[⟨"7.7.7.7", 500, none, none, none, false, some "Low confidence", none⟩,
    ⟨"8.8.8.8", 600, some "x", some 1, some 1, true, none, none⟩], [], []⟩

theorem c10_window_counts_only_successes_witness :
    (∀ d ∈ c10db.detections, d.ip = "7.7.7.7" → d.success = false)
  ∧ blockedFlag c10db.rateLimits "7.7.7.7" = false
  ∧ (0 < 20)
  ∧ getRecentDetections c10db "7.7.7.7" (1000 - (60 : Int) * 60 * 1000) = 0
  ∧ (checkRateLimit c10db false "7.7.7.7" 1000 60 20).2
      = { allowed := true, reason := none } :=
  ⟨by decide, by decide, by decide,
    (c10_window_counts_only_successes c10db "7.7.7.7" 1000 60 20 (by decide)
      (by decide) (by decide)).1,
    (c10_window_counts_only_successes c10db "7.7.7.7" 1000 60 20 (by decide)
      (by decide) (by decide)).2.1⟩

theorem c4_circuit_breaker_state_machine_witness :
    ((⟨5, true, 100⟩ : CircuitState).circuitOpen = true)
  ∧ ((100 : Int) - 100 < 60000)
  ∧ callRoboflowAPI ⟨5, true, 100⟩ 100 true true failTransport =
      { state := ⟨5, true, 100⟩, networkCalled := false
        result := .err "Service temporarily unavailable - too many failures" }
  ∧ callRoboflowAPI ⟨5, true, 100⟩ 70000 true true failTransport =
      callRoboflowAPI ⟨0, false, 100⟩ 70000 true true failTransport
  ∧ (callRoboflowAPI
      (callRoboflowAPI
        (callRoboflowAPI
          (callRoboflowAPI
            (callRoboflowAPI ⟨0, false, 0⟩ 1 true true failTransport).state
            2 true true failTransport).state
          3 true true failTransport).state
        4 true true failTransport).state
      5 true true failTransport).state = ⟨5, true, 5⟩
  ∧ callRoboflowAPI ⟨3, false, 7⟩ 9 true true (.response 200 emptyModel "x") =
      { state := ⟨0, false, 7⟩, networkCalled := true
        result := .ok emptyModel } :=
  ⟨rfl, by decide,
    c4_circuit_breaker_state_machine.1 ⟨5, true, 100⟩ 100 true true
      failTransport rfl (by decide),
    c4_circuit_breaker_state_machine.2.1 ⟨5, true, 100⟩ 70000 true true
      failTransport rfl (by decide),
    c4_circuit_breaker_state_machine.2.2.2.1 ⟨0, false, 0⟩ rfl rfl 1 2 3 4 5
      failTransport failTransport failTransport failTransport failTransport
      (by decide) (by decide) (by decide) (by decide) (by decide),
    c4_circuit_breaker_state_machine.2.2.2.2 ⟨3, false, 7⟩ 9 emptyModel "x" rfl⟩

end Calamansi
